import Mathlib

/-!
Verification of the thin validation / request-shaping layer of a vector-search
application (files `search_validator.py`, `search_similar.py`, `insert_text.py`).

The layer is embedded shallowly:
* Python dynamic values that the validators inspect become the inductive `PyVal`.
* Python exceptions become the inductive `PyError`; fallible functions return
  `Except PyError _`.
* The two external services (embedding service and vector store) are test
  doubles: a `SearchWorld` / `InsertWorld` record holds the outcome each
  external call would produce, and every operation also returns the list of
  external calls (`Event`s) it actually attempted, in order.
* The in-place mutation of the caller's metadata dictionary in `insert_text`
  is modelled with an explicit heap (`Heap`) mapping references to
  dictionaries; the caller passes a reference, and the operation returns the
  updated heap.
-/

namespace PineconeApp

/-- Python dynamic values, as far as the validators inspect them.  `vDict` is
an opaque marker for "some dictionary object": the validators only ever ask
`isinstance(metadata, dict)`, never look inside, so no payload is needed. -/
inductive PyVal where
  | vNone
  | vInt (n : Int)
  | vStr (s : String)
  | vDict
  deriving DecidableEq

/-- Python truthiness for the values above (`not x` tests).  The truthiness of
a dictionary is never consulted by this layer. -/
def pyTruthy : PyVal → Bool
  | .vNone => false
  | .vInt n => n != 0
  | .vStr s => !s.isEmpty
  | .vDict => true

/-- `isinstance(v, str)` -/
def isStr : PyVal → Bool
  | .vStr _ => true
  | _ => false

/-- `isinstance(v, int)` -/
def isInt : PyVal → Bool
  | .vInt _ => true
  | _ => false

/-- `isinstance(v, dict)` -/
def isDict : PyVal → Bool
  | .vDict => true
  | _ => false

/-- The string carried by a `vStr`; only consulted behind an `isStr` guard. -/
def pyStrOf : PyVal → String
  | .vStr s => s
  | _ => ""

/-- The integer carried by a `vInt`; only consulted behind an `isInt` guard. -/
def pyIntOf : PyVal → Int
  | .vInt n => n
  | _ => 0

/-- Python `str.strip()`: remove leading and trailing whitespace. -/
def pyStrip (s : String) : String :=
  String.mk (((s.toList.dropWhile Char.isWhitespace).reverse.dropWhile
      Char.isWhitespace).reverse)

/-- The exceptions this layer raises or lets through: `ValueError`,
`TypeError`, and any exception coming out of an external-service call
(carried with its original diagnostic string, untranslated). -/
inductive PyError where
  | valueError (msg : String)
  | typeError (msg : String)
  | externalError (msg : String)
  deriving DecidableEq

/-- `validate_search_params` from `search_validator.py`, check for check in
source order: blank/non-string query, non-int `top_k`, non-positive `top_k`,
falsy api key, falsy index name. -/
def validate_search_params (query_text top_k api_key index_name : PyVal) :
    Except PyError Unit :=
  if !pyTruthy query_text
      || (match query_text with
          | .vStr s => decide (pyStrip s = "")
          | _ => true) then
    .error (.valueError "Query text cannot be empty and must be a string")
  else if !isInt top_k then
    .error (.typeError "top_k must be an integer")
  else if (match top_k with | .vInt n => decide (n ≤ 0) | _ => false) then
    .error (.valueError "top_k must be a positive integer")
  else if !pyTruthy api_key then
    .error (.valueError "API key is required")
  else if !pyTruthy index_name then
    .error (.valueError "Index name is required")
  else
    .ok ()

/-- `validate_insert_params` from `search_validator.py`. -/
def validate_insert_params (text metadata api_key index_name : PyVal) :
    Except PyError Unit :=
  if !pyTruthy text
      || (match text with
          | .vStr s => decide (pyStrip s = "")
          | _ => true) then
    .error (.valueError "Text cannot be empty and must be a string")
  else if metadata != .vNone && !isDict metadata then
    .error (.typeError "Metadata must be a dictionary")
  else if !pyTruthy api_key then
    .error (.valueError "API key is required")
  else if !pyTruthy index_name then
    .error (.valueError "Index name is required")
  else
    .ok ()

/-- A Python dictionary with string keys, in insertion order. -/
abbrev Dict := List (String × PyVal)

/-- `d.get(k)`: the value at `k`, if present. -/
def dictGet? (d : Dict) (k : String) : Option PyVal :=
  (d.find? (fun p => p.1 == k)).map (fun p => p.2)

/-- `d.get(k, default)`. -/
def dictGetD (d : Dict) (k : String) (default : PyVal) : PyVal :=
  (dictGet? d k).getD default

/-- `d[k] = v`: replaces the value at an existing key in place (keeping
insertion order), otherwise appends the new binding at the end.  A Python
dictionary never holds a key twice, so replacing the first occurrence is the
Python update semantics. -/
def dictSet (d : Dict) (k : String) (v : PyVal) : Dict :=
  match d with
  | [] => [(k, v)]
  | p :: rest => if p.1 == k then (k, v) :: rest else p :: dictSet rest k v

/-- The process environment, `os.getenv`. -/
abbrev Env := String → Option String

/-- `x or os.getenv(k)`: the explicit value if truthy, otherwise the
environment value (a string, or `None` when unset). -/
def pyOrEnv (v : PyVal) (envVal : Option String) : PyVal :=
  if pyTruthy v then v
  else match envVal with
    | some s => .vStr s
    | none => .vNone

/-- One attempted external-service call, recorded in order of occurrence. -/
inductive Event where
  | statsCall
  | embedCall (text : String)
  | queryCall (nspace : String) (vector : List Rat) (topK : Int)
  | upsertCall (id : String) (values : List Rat) (md : Dict) (nspace : String)
  deriving DecidableEq

/-- One raw match in the store's query response: `id` and `score` are
mandatory subscripts in the source, `metadata` is read with
`match.get("metadata", {})` and so may be absent. -/
structure MatchR where
  id : String
  score : Rat
  metadata : Option Dict
  deriving DecidableEq

/-- One normalized search result, the dictionary
`{id, text, similarity_score, metadata}` built per match. -/
structure SearchResult where
  id : String
  text : PyVal
  similarity_score : Rat
  metadata : Dict
  deriving DecidableEq

/-- The per-match normalization step of `search_similar_texts`: default the
missing metadata to `{}`, default the missing `text` key to the sentinel. -/
def normalizeMatch (m : MatchR) : SearchResult :=
  let metadata := m.metadata.getD []
  { id := m.id
    text := dictGetD metadata "text" (.vStr "No text available")
    similarity_score := m.score
    metadata := metadata }

/-- Test double for the world `search_similar_texts` runs in: the process
environment plus the outcome each external call would produce if attempted.
`statsResult` is the value of the `total_vector_count` key of the stats
response (absent key modelled as `none`), or the exception the stats call
raises; `embedResult` is the embedding vector or the embedding-service
exception; `queryMatches` is the `matches` field of the query response
(`none` models a response whose `matches` attribute is `None`), or the
query exception. -/
structure SearchWorld where
  env : Env
  statsResult : Except String (Option Int)
  embedResult : Except String (List Rat)
  queryMatches : Except String (Option (List MatchR))

/-- `search_similar_texts` from `search_similar.py`.  Returns the result (or
the exception) together with the ordered list of external calls attempted. -/
def search_similar_texts (w : SearchWorld) (query_text top_k api_key : PyVal)
    (index_name : PyVal) (nspace : String) (openai_api_key pinecone_host : PyVal) :
    Except PyError (List SearchResult) × List Event :=
  let index_name :=
    if index_name = .vNone then
      .vStr ((w.env "PINECONE_INDEX_NAME").getD "msft-deep-search-oai-3-small")
    else index_name
  match validate_search_params query_text top_k api_key index_name with
  | .error e => (.error e, [])
  | .ok _ =>
    let pinecone_api_key := pyOrEnv api_key (w.env "PINECONE_API_KEY")
    let openai_key := pyOrEnv openai_api_key (w.env "OPENAI_API_KEY")
    let _host := pyOrEnv pinecone_host (w.env "PINECONE_HOST")
    if !pyTruthy pinecone_api_key then
      (.error (.valueError
        "Pinecone API key not provided and not found in environment variables"), [])
    else if !pyTruthy openai_key then
      (.error (.valueError
        "OpenAI API key not provided and not found in environment variables"), [])
    else
      -- try: stats = index.describe_index_stats(); short-circuit on 0
      -- except Exception as e: print the error and fall through
      let shortCircuit : Bool :=
        match w.statsResult with
        | .error _ => false
        | .ok o => decide (o.getD 0 = 0)
      if shortCircuit then
        (.ok [], [.statsCall])
      else
        match w.embedResult with
        | .error e => (.error (.externalError e), [.statsCall, .embedCall (pyStrOf query_text)])
        | .ok embedding =>
          match w.queryMatches with
          | .error e =>
            (.error (.externalError e),
             [.statsCall, .embedCall (pyStrOf query_text),
              .queryCall nspace embedding (pyIntOf top_k)])
          | .ok mo =>
            let ms := mo.getD []
            (.ok (ms.map normalizeMatch),
             [.statsCall, .embedCall (pyStrOf query_text),
              .queryCall nspace embedding (pyIntOf top_k)])

/-- Test double for the world `insert_text` runs in; `freshId` is the
`str(uuid.uuid4())` the run would generate. -/
structure InsertWorld where
  env : Env
  embedResult : Except String (List Rat)
  upsertResult : Except String Unit
  freshId : String

/-- The mutable store of dictionary objects: a reference (`Nat`) names the
caller's metadata dictionary, so that in-place mutation is observable. -/
abbrev Heap := Nat → Dict

/-- Overwrite the dictionary object at reference `r`. -/
def heapUpdate (h : Heap) (r : Nat) (d : Dict) : Heap :=
  fun r' => if r' = r then d else h r'

/-- `insert_text` from `insert_text.py`.  `metadataRef` is the caller's
metadata argument: `none` for Python `None`, `some r` for a reference to the
dictionary `heap r`.  Returns the result (or exception), the ordered list of
external calls attempted, and the heap after the call. -/
def insert_text (w : InsertWorld) (heap : Heap) (text : PyVal)
    (metadataRef : Option Nat) (api_key index_name : PyVal) (nspace : String)
    (openai_api_key pinecone_host : PyVal) :
    Except PyError String × List Event × Heap :=
  let index_name :=
    if index_name = .vNone then
      .vStr ((w.env "PINECONE_INDEX_NAME").getD "msft-deep-search-oai-3-small")
    else index_name
  let metadataVal : PyVal :=
    match metadataRef with
    | none => .vNone
    | some _ => .vDict
  match validate_insert_params text metadataVal api_key index_name with
  | .error e => (.error e, [], heap)
  | .ok _ =>
    let pinecone_api_key := pyOrEnv api_key (w.env "PINECONE_API_KEY")
    let openai_key := pyOrEnv openai_api_key (w.env "OPENAI_API_KEY")
    let _host := pyOrEnv pinecone_host (w.env "PINECONE_HOST")
    if !pyTruthy pinecone_api_key then
      (.error (.valueError
        "Pinecone API key not provided and not found in environment variables"), [], heap)
    else if !pyTruthy openai_key then
      (.error (.valueError
        "OpenAI API key not provided and not found in environment variables"), [], heap)
    else
      let vector_id := w.freshId
      match w.embedResult with
      | .error e => (.error (.externalError e), [.embedCall (pyStrOf text)], heap)
      | .ok embedding =>
        -- if metadata is None: metadata = {}; metadata["text"] = text (in place)
        let mdAndHeap : Dict × Heap :=
          match metadataRef with
          | none => (dictSet [] "text" text, heap)
          | some r =>
            let d := dictSet (heap r) "text" text
            (d, heapUpdate heap r d)
        let md := mdAndHeap.1
        let heap' := mdAndHeap.2
        match w.upsertResult with
        | .error e =>
          (.error (.externalError e),
           [.embedCall (pyStrOf text), .upsertCall vector_id embedding md nspace], heap')
        | .ok _ =>
          (.ok vector_id,
           [.embedCall (pyStrOf text), .upsertCall vector_id embedding md nspace], heap')

/-! Concrete sample data used by witnesses. -/

/-- An empty process environment. -/
def env0 : Env := fun _ => none

/-- An environment that supplies only the store credential. -/
def envStoreKey : Env :=
  fun k => if k = "PINECONE_API_KEY" then some "pc-env-key" else none

/-- A world whose store reports three vectors and whose calls all succeed. -/
def wSearch0 : SearchWorld :=
  { env := env0
    statsResult := .ok (some 3)
    embedResult := .ok [1, 0]
    queryMatches := .ok (some []) }

/-- A world whose insert-side calls all succeed. -/
def wInsert0 : InsertWorld :=
  { env := env0
    embedResult := .ok [1, 0]
    upsertResult := .ok ()
    freshId := "id-0001" }

/-- A heap whose reference 0 holds `{"category": "x", "text": "other"}`. -/
def heap0 : Heap :=
  fun r => if r = 0 then [("category", .vStr "x"), ("text", .vStr "other")] else []


/-! Helper lemmas shared by the claim proofs. -/

/-- A string whose `strip` is nonempty is itself nonempty. -/
theorem ne_empty_of_pyStrip_ne (s : String) (h : pyStrip s ≠ "") : s ≠ "" := by
  intro hs
  subst hs
  exact h rfl

/-- `isEmpty` is `false` on a string known to differ from `""`. -/
theorem isEmpty_false_of_ne (s : String) (h : s ≠ "") : s.isEmpty = false := by
  cases he : s.isEmpty
  · rfl
  · exact absurd ((String.isEmpty_iff s).mp he) h

/-- The search validator accepts any nonblank query, positive count, and
nonempty credential and index strings. -/
theorem validate_search_params_accepts (q : String) (hq : pyStrip q ≠ "")
    (n : Int) (hn : 0 < n) (pk ix : String) (hpk : pk ≠ "") (hix : ix ≠ "") :
    validate_search_params (.vStr q) (.vInt n) (.vStr pk) (.vStr ix) = .ok () := by
  have hq' : q ≠ "" := ne_empty_of_pyStrip_ne q hq
  simp [validate_search_params, pyTruthy, isInt, String.isEmpty_iff, hq, hq', hpk, hix,
    not_le.mpr hn]

/-- The insert validator accepts any nonblank text, `None`-or-dict metadata,
and nonempty credential and index strings. -/
theorem validate_insert_params_accepts (t : String) (ht : pyStrip t ≠ "")
    (md : PyVal) (hmd : md = .vNone ∨ md = .vDict) (pk ix : String)
    (hpk : pk ≠ "") (hix : ix ≠ "") :
    validate_insert_params (.vStr t) md (.vStr pk) (.vStr ix) = .ok () := by
  have ht' : t ≠ "" := ne_empty_of_pyStrip_ne t ht
  rcases hmd with h | h <;> subst h <;>
    simp [validate_insert_params, pyTruthy, isDict, String.isEmpty_iff, ht, ht', hpk, hix]

/-- Looking up the key just written returns the written value. -/
theorem dictGet?_dictSet_self (d : Dict) (k : String) (v : PyVal) :
    dictGet? (dictSet d k v) k = some v := by
  induction d with
  | nil => simp [dictSet, dictGet?, List.find?]
  | cons p rest ih =>
    by_cases hp : p.1 == k
    · simp [dictSet, dictGet?, List.find?, hp]
    · simpa [dictSet, dictGet?, List.find?, hp] using ih

/-- Writing one key leaves every other key's lookup unchanged. -/
theorem dictGet?_dictSet_ne (d : Dict) (k kx : String) (v : PyVal) (h : kx ≠ k) :
    dictGet? (dictSet d k v) kx = dictGet? d kx := by
  induction d with
  | nil =>
    have : (k == kx) = false := by simp [beq_iff_eq, Ne.symm h]
    simp [dictSet, dictGet?, List.find?, this]
  | cons p rest ih =>
    by_cases hp : p.1 == k
    · have hpx : (p.1 == kx) = false := by
        have : p.1 = k := by simpa [beq_iff_eq] using hp
        simp [this, beq_iff_eq, Ne.symm h]
      simp [dictSet, dictGet?, List.find?, hp, hpx, beq_iff_eq, Ne.symm h]
    · by_cases hx : p.1 == kx
      · simp [dictSet, dictGet?, List.find?, hp, hx]
      · simpa [dictSet, dictGet?, List.find?, hp, hx] using ih

/-- Claim C1: for every empty or whitespace-only text (a string whose strip
is empty), both `search_similar_texts` and `insert_text` raise a `ValueError`
during validation and attempt zero external calls, whatever the world, the
remaining arguments, and the heap are. -/
theorem c1_blank_text_rejected_locally
    (s : String) (hs : pyStrip s = "")
    (w : SearchWorld) (wi : InsertWorld) (heap : Heap)
    (tk ak ix okey host : PyVal) (nsp : String)
    (mref : Option Nat) (ak2 ix2 okey2 host2 : PyVal) (nsp2 : String) :
    search_similar_texts w (.vStr s) tk ak ix nsp okey host
      = (.error (.valueError "Query text cannot be empty and must be a string"), [])
    ∧ insert_text wi heap (.vStr s) mref ak2 ix2 nsp2 okey2 host2
      = (.error (.valueError "Text cannot be empty and must be a string"), [], heap) := by
  constructor
  · simp [search_similar_texts, validate_search_params, hs]
  · simp [insert_text, validate_insert_params, hs]

theorem c1_blank_text_rejected_locally_witness :
    search_similar_texts wSearch0 (.vStr "   ") (.vInt 5) (.vStr "pk") (.vStr "ix") ""
        (.vStr "ok-key") .vNone
      = (.error (.valueError "Query text cannot be empty and must be a string"), [])
    ∧ insert_text wInsert0 heap0 (.vStr "   ") (some 0) (.vStr "pk") (.vStr "ix") ""
        (.vStr "ok-key") .vNone
      = (.error (.valueError "Text cannot be empty and must be a string"), [], heap0) :=
  c1_blank_text_rejected_locally "   " (by decide) wSearch0 wInsert0 heap0
    (.vInt 5) (.vStr "pk") (.vStr "ix") (.vStr "ok-key") .vNone ""
    (some 0) (.vStr "pk") (.vStr "ix") (.vStr "ok-key") .vNone ""

/-- Claim C2 (code evaluation at the failing input): the environment supplies
the store credential `PINECONE_API_KEY`, the caller omits the explicit
`api_key` argument, and every other input is valid — yet both operations
raise the missing-credential `ValueError` from the validator, because the
validator runs on the raw argument before the `api_key or os.getenv(...)`
fallback, making that fallback unreachable. -/
theorem c2_store_credential_env_fallback_dead :
    search_similar_texts ⟨envStoreKey, .ok (some 3), .ok [1], .ok (some [])⟩
      (.vStr "hello") (.vInt 5) .vNone (.vStr "ix") "" (.vStr "ok-key") .vNone
      = (.error (.valueError "API key is required"), [])
    ∧ insert_text ⟨envStoreKey, .ok [1], .ok (), "id-0001"⟩ heap0 (.vStr "hello") none
      .vNone (.vStr "ix") "" (.vStr "ok-key") .vNone
      = (.error (.valueError "API key is required"), [], heap0) :=
  ⟨rfl, rfl⟩

/-- Claim C3 (counterexample): a failure of the store stats call does not
propagate — with the stats call failing and every later call succeeding,
`search_similar_texts` still returns an `ok` result, so this external-call
failure was caught and swallowed rather than surfaced. -/
theorem c3_stats_error_swallowed_counterexample :
    search_similar_texts ⟨env0, .error "stats unavailable", .ok [1],
        .ok (some [⟨"a", 1, some [("text", .vStr "t")]⟩])⟩
      (.vStr "hello") (.vInt 5) (.vStr "pk") (.vStr "ix") "" (.vStr "ok-key") .vNone
      = (.ok [⟨"a", .vStr "t", 1, [("text", .vStr "t")]⟩],
         [.statsCall, .embedCall "hello", .queryCall "" [1] 5]) :=
  rfl

/-- Claim C3 (amended): failures of the embedding call, the store query, and
the store upsert propagate to the caller unchanged, with no further external
call attempted after the failing one; a failure of the store stats call,
however, is caught and swallowed — the search then behaves exactly as if the
index had reported a nonzero vector count. -/
theorem c3_error_propagation_amended
    (env : Env) (heap : Heap) (mref : Option Nat) (e : String)
    (sv : Option Int) (hsv : sv.getD 0 ≠ 0) (emb : List Rat)
    (embr : Except String (List Rat)) (qm : Except String (Option (List MatchR)))
    (ur : Except String Unit) (fid : String) (r : Nat)
    (q t pk ix ok nsp : String) (hq : pyStrip q ≠ "") (ht : pyStrip t ≠ "")
    (n : Int) (hn : 0 < n) (hpk : pk ≠ "") (hix : ix ≠ "") (hok : ok ≠ "") :
    (search_similar_texts ⟨env, .ok sv, .error e, qm⟩ (.vStr q) (.vInt n)
        (.vStr pk) (.vStr ix) nsp (.vStr ok) .vNone
      = (.error (.externalError e), [.statsCall, .embedCall q]))
    ∧ (search_similar_texts ⟨env, .ok sv, .ok emb, .error e⟩ (.vStr q) (.vInt n)
        (.vStr pk) (.vStr ix) nsp (.vStr ok) .vNone
      = (.error (.externalError e),
         [.statsCall, .embedCall q, .queryCall nsp emb n]))
    ∧ (insert_text ⟨env, .error e, ur, fid⟩ heap (.vStr t) mref
        (.vStr pk) (.vStr ix) nsp (.vStr ok) .vNone
      = (.error (.externalError e), [.embedCall t], heap))
    ∧ (insert_text ⟨env, .ok emb, .error e, fid⟩ heap (.vStr t) (some r)
        (.vStr pk) (.vStr ix) nsp (.vStr ok) .vNone
      = (.error (.externalError e),
         [.embedCall t, .upsertCall fid emb (dictSet (heap r) "text" (.vStr t)) nsp],
         heapUpdate heap r (dictSet (heap r) "text" (.vStr t))))
    ∧ (search_similar_texts ⟨env, .error e, embr, qm⟩ (.vStr q) (.vInt n)
        (.vStr pk) (.vStr ix) nsp (.vStr ok) .vNone
      = search_similar_texts ⟨env, .ok (some 1), embr, qm⟩ (.vStr q) (.vInt n)
        (.vStr pk) (.vStr ix) nsp (.vStr ok) .vNone) := by
  have hpkE : pk.isEmpty = false := isEmpty_false_of_ne pk hpk
  have hokE : ok.isEmpty = false := isEmpty_false_of_ne ok hok
  refine ⟨?_, ?_, ?_, ?_, ?_⟩
  · simp [search_similar_texts, validate_search_params_accepts q hq n hn pk ix hpk hix,
      pyOrEnv, pyTruthy, hpkE, hokE, hsv, pyStrOf]
  · simp [search_similar_texts, validate_search_params_accepts q hq n hn pk ix hpk hix,
      pyOrEnv, pyTruthy, hpkE, hokE, hsv, pyStrOf, pyIntOf]
  · cases mref <;>
      simp [insert_text,
        validate_insert_params_accepts t ht (.vNone) (Or.inl rfl) pk ix hpk hix,
        validate_insert_params_accepts t ht (.vDict) (Or.inr rfl) pk ix hpk hix,
        pyOrEnv, pyTruthy, hpkE, hokE, pyStrOf]
  · simp [insert_text,
      validate_insert_params_accepts t ht (.vDict) (Or.inr rfl) pk ix hpk hix,
      pyOrEnv, pyTruthy, hpkE, hokE, pyStrOf]
  · simp [search_similar_texts, validate_search_params_accepts q hq n hn pk ix hpk hix,
      pyOrEnv, pyTruthy, hpkE, hokE]

theorem c3_error_propagation_amended_witness :
    search_similar_texts ⟨env0, .ok (some 3), .error "embed down", .ok (some [])⟩
      (.vStr "q") (.vInt 5) (.vStr "pk") (.vStr "ix") "" (.vStr "ok-key") .vNone
      = (.error (.externalError "embed down"), [.statsCall, .embedCall "q"]) :=
  (c3_error_propagation_amended env0 heap0 none "embed down" (some 3) (by decide)
    [1] (.ok [1]) (.ok (some [])) (.ok ()) "id-0001" 0 "q" "t" "pk" "ix" "ok-key" ""
    (by decide) (by decide) 5 (by decide) (by decide) (by decide) (by decide)).1

/-- A successful insert with a caller metadata reference: the full run
equality used by several proofs below. -/
theorem insert_text_success_run
    (env : Env) (emb : List Rat) (fid : String) (heap : Heap) (r : Nat)
    (t pk ix ok nsp : String) (ht : pyStrip t ≠ "")
    (hpk : pk ≠ "") (hix : ix ≠ "") (hok : ok ≠ "") :
    insert_text ⟨env, .ok emb, .ok (), fid⟩ heap (.vStr t) (some r)
        (.vStr pk) (.vStr ix) nsp (.vStr ok) .vNone
      = (.ok fid,
         [.embedCall t, .upsertCall fid emb (dictSet (heap r) "text" (.vStr t)) nsp],
         heapUpdate heap r (dictSet (heap r) "text" (.vStr t))) := by
  have hpkE : pk.isEmpty = false := isEmpty_false_of_ne pk hpk
  have hokE : ok.isEmpty = false := isEmpty_false_of_ne ok hok
  simp [insert_text,
    validate_insert_params_accepts t ht (.vDict) (Or.inr rfl) pk ix hpk hix,
    pyOrEnv, pyTruthy, hpkE, hokE, pyStrOf]

/-- Claim C4: a validated insert of text `t` with caller metadata `heap r`
upserts one record whose id is the freshly generated identifier, whose
metadata is the caller's mapping with the reserved key `"text"` bound to `t`
(overwriting any caller-supplied value at that key, last-write-wins, every
other key unchanged), and returns that same identifier. -/
theorem c4_insert_upsert_payload
    (env : Env) (emb : List Rat) (fid : String) (heap : Heap) (r : Nat)
    (t pk ix ok nsp : String) (ht : pyStrip t ≠ "")
    (hpk : pk ≠ "") (hix : ix ≠ "") (hok : ok ≠ "") :
    insert_text ⟨env, .ok emb, .ok (), fid⟩ heap (.vStr t) (some r)
        (.vStr pk) (.vStr ix) nsp (.vStr ok) .vNone
      = (.ok fid,
         [.embedCall t, .upsertCall fid emb (dictSet (heap r) "text" (.vStr t)) nsp],
         heapUpdate heap r (dictSet (heap r) "text" (.vStr t)))
    ∧ dictGet? (dictSet (heap r) "text" (.vStr t)) "text" = some (.vStr t)
    ∧ ∀ k, k ≠ "text" →
        dictGet? (dictSet (heap r) "text" (.vStr t)) k = dictGet? (heap r) k := by
  exact ⟨insert_text_success_run env emb fid heap r t pk ix ok nsp ht hpk hix hok,
    dictGet?_dictSet_self _ _ _, fun k hk => dictGet?_dictSet_ne _ _ _ _ hk⟩

theorem c4_insert_upsert_payload_witness :
    insert_text wInsert0 heap0 (.vStr "T") (some 0) (.vStr "pk") (.vStr "ix") ""
        (.vStr "ok-key") .vNone
      = (.ok "id-0001",
         [.embedCall "T", .upsertCall "id-0001" [1, 0]
            (dictSet (heap0 0) "text" (.vStr "T")) ""],
         heapUpdate heap0 0 (dictSet (heap0 0) "text" (.vStr "T")))
    ∧ dictGet? (dictSet (heap0 0) "text" (.vStr "T")) "text" = some (.vStr "T")
    ∧ ∀ k, k ≠ "text" →
        dictGet? (dictSet (heap0 0) "text" (.vStr "T")) k = dictGet? (heap0 0) k :=
  c4_insert_upsert_payload env0 [1, 0] "id-0001" heap0 0 "T" "pk" "ix" "ok-key" ""
    (by decide) (by decide) (by decide) (by decide)

/-- Claim C5: when the stats call reports `total_vector_count = 0`, search
returns the empty list and attempts neither the embedding call nor the store
query — the only external call in the trace is the stats call. -/
theorem c5_empty_index_short_circuit
    (env : Env) (embr : Except String (List Rat))
    (qm : Except String (Option (List MatchR))) (q pk ix ok nsp : String)
    (n : Int) (hq : pyStrip q ≠ "") (hn : 0 < n)
    (hpk : pk ≠ "") (hix : ix ≠ "") (hok : ok ≠ "") :
    search_similar_texts ⟨env, .ok (some 0), embr, qm⟩ (.vStr q) (.vInt n)
        (.vStr pk) (.vStr ix) nsp (.vStr ok) .vNone
      = (.ok [], [.statsCall]) := by
  have hpkE : pk.isEmpty = false := isEmpty_false_of_ne pk hpk
  have hokE : ok.isEmpty = false := isEmpty_false_of_ne ok hok
  simp [search_similar_texts, validate_search_params_accepts q hq n hn pk ix hpk hix,
    pyOrEnv, pyTruthy, hpkE, hokE]

theorem c5_empty_index_short_circuit_witness :
    search_similar_texts ⟨env0, .ok (some 0), .ok [1], .ok (some [])⟩
      (.vStr "hello") (.vInt 5) (.vStr "pk") (.vStr "ix") "" (.vStr "ok-key") .vNone
      = (.ok [], [.statsCall]) :=
  c5_empty_index_short_circuit env0 (.ok [1]) (.ok (some [])) "hello" "pk" "ix"
    "ok-key" "" 5 (by decide) (by decide) (by decide) (by decide) (by decide)

/-- Claim C6: with a nonblank query, a non-integer `top_k` makes search raise
the `TypeError` subkind and a non-positive integer `top_k` the `ValueError`
subkind, in both cases with zero external calls attempted (so the embedder is
never reached); the two subkinds are distinct values, so callers can branch
on them. -/
theorem c6_top_k_subkind_validation
    (q : String) (hq : pyStrip q ≠ "") (w : SearchWorld)
    (tk ak ix okey host : PyVal) (nsp : String) :
    (isInt tk = false →
      search_similar_texts w (.vStr q) tk ak ix nsp okey host
        = (.error (.typeError "top_k must be an integer"), []))
    ∧ (∀ n : Int, n ≤ 0 →
      search_similar_texts w (.vStr q) (.vInt n) ak ix nsp okey host
        = (.error (.valueError "top_k must be a positive integer"), []))
    ∧ (∀ m mx, PyError.typeError m ≠ PyError.valueError mx) := by
  have hq' : q ≠ "" := ne_empty_of_pyStrip_ne q hq
  refine ⟨fun htk => ?_, fun n hn => ?_, fun m mx => by simp⟩
  · simp [search_similar_texts, validate_search_params, pyTruthy, hq, hq',
      String.isEmpty_iff, htk]
  · simp [search_similar_texts, validate_search_params, pyTruthy, isInt, hq, hq',
      String.isEmpty_iff, hn]

theorem c6_top_k_subkind_validation_witness :
    search_similar_texts wSearch0 (.vStr "hello") (.vStr "five") (.vStr "pk")
        (.vStr "ix") "" (.vStr "ok-key") .vNone
      = (.error (.typeError "top_k must be an integer"), [])
    ∧ search_similar_texts wSearch0 (.vStr "hello") (.vInt 0) (.vStr "pk")
        (.vStr "ix") "" (.vStr "ok-key") .vNone
      = (.error (.valueError "top_k must be a positive integer"), []) :=
  ⟨(c6_top_k_subkind_validation "hello" (by decide) wSearch0 (.vStr "five")
      (.vStr "pk") (.vStr "ix") (.vStr "ok-key") .vNone "").1 (by decide),
   (c6_top_k_subkind_validation "hello" (by decide) wSearch0 (.vStr "five")
      (.vStr "pk") (.vStr "ix") (.vStr "ok-key") .vNone "").2.1 0 (by decide)⟩

/-- Claim C7: for every list of raw matches returned by the store, search
returns exactly one normalized result per match, in the store's order, with
each similarity score and id copied unmodified (the i-th result's score and
id are the i-th match's score and id). -/
theorem c7_result_order_preserved
    (env : Env) (sv : Option Int) (hsv : sv.getD 0 ≠ 0) (emb : List Rat)
    (ms : List MatchR) (q pk ix ok nsp : String) (n : Int)
    (hq : pyStrip q ≠ "") (hn : 0 < n) (hpk : pk ≠ "") (hix : ix ≠ "") (hok : ok ≠ "") :
    search_similar_texts ⟨env, .ok sv, .ok emb, .ok (some ms)⟩ (.vStr q) (.vInt n)
        (.vStr pk) (.vStr ix) nsp (.vStr ok) .vNone
      = (.ok (ms.map normalizeMatch),
         [.statsCall, .embedCall q, .queryCall nsp emb n])
    ∧ (ms.map normalizeMatch).length = ms.length
    ∧ (∀ i : Nat, ((ms.map normalizeMatch)[i]?).map SearchResult.similarity_score
        = (ms[i]?).map MatchR.score)
    ∧ (∀ i : Nat, ((ms.map normalizeMatch)[i]?).map SearchResult.id
        = (ms[i]?).map MatchR.id) := by
  have hpkE : pk.isEmpty = false := isEmpty_false_of_ne pk hpk
  have hokE : ok.isEmpty = false := isEmpty_false_of_ne ok hok
  refine ⟨?_, List.length_map _ _, fun i => ?_, fun i => ?_⟩
  · simp [search_similar_texts, validate_search_params_accepts q hq n hn pk ix hpk hix,
      pyOrEnv, pyTruthy, hpkE, hokE, hsv, pyStrOf, pyIntOf]
  · cases h : ms[i]? <;> simp [List.getElem?_map, h, normalizeMatch]
  · cases h : ms[i]? <;> simp [List.getElem?_map, h, normalizeMatch]

theorem c7_result_order_preserved_witness :
    search_similar_texts ⟨env0, .ok (some 3), .ok [1],
        .ok (some [⟨"a", 95/100, some [("text", .vStr "ta")]⟩,
                   ⟨"b", 80/100, some [("text", .vStr "tb")]⟩,
                   ⟨"c", 50/100, none⟩])⟩
      (.vStr "hello") (.vInt 3) (.vStr "pk") (.vStr "ix") "" (.vStr "ok-key") .vNone
      = (.ok ([⟨"a", 95/100, some [("text", .vStr "ta")]⟩,
               ⟨"b", 80/100, some [("text", .vStr "tb")]⟩,
               ⟨"c", 50/100, none⟩].map normalizeMatch),
         [.statsCall, .embedCall "hello", .queryCall "" [1] 3]) :=
  (c7_result_order_preserved env0 (some 3) (by decide) [1]
    [⟨"a", 95/100, some [("text", .vStr "ta")]⟩,
     ⟨"b", 80/100, some [("text", .vStr "tb")]⟩,
     ⟨"c", 50/100, none⟩]
    "hello" "pk" "ix" "ok-key" "" 3 (by decide) (by decide) (by decide) (by decide)
    (by decide)).1

/-- Claim C8: a raw match whose metadata has no `"text"` key normalizes to a
result whose text is the sentinel string `"No text available"` (no error is
raised; normalization is total). -/
theorem c8_missing_text_sentinel (m : MatchR)
    (h : dictGet? (m.metadata.getD []) "text" = none) :
    (normalizeMatch m).text = .vStr "No text available" := by
  simp [normalizeMatch, dictGetD, h]

theorem c8_missing_text_sentinel_witness :
    (normalizeMatch ⟨"a", 1/2, some [("category", .vStr "x")]⟩).text
      = .vStr "No text available" :=
  c8_missing_text_sentinel ⟨"a", 1/2, some [("category", .vStr "x")]⟩ (by decide)

/-- Claim C9: when the embedding call fails during insert, the error is the
only outcome: the attempted-call trace is just the embedding call — no upsert
call of any shape appears in it — and the heap (the caller's metadata object)
is untouched, so no partial record is sent to the store. -/
theorem c9_failed_embed_no_store_call
    (env : Env) (e : String) (ur : Except String Unit) (fid : String)
    (heap : Heap) (mref : Option Nat) (t pk ix ok nsp : String)
    (ht : pyStrip t ≠ "") (hpk : pk ≠ "") (hix : ix ≠ "") (hok : ok ≠ "") :
    insert_text ⟨env, .error e, ur, fid⟩ heap (.vStr t) mref
        (.vStr pk) (.vStr ix) nsp (.vStr ok) .vNone
      = (.error (.externalError e), [.embedCall t], heap)
    ∧ ∀ id vals md n2, Event.upsertCall id vals md n2 ∉ ([.embedCall t] : List Event) := by
  have hpkE : pk.isEmpty = false := isEmpty_false_of_ne pk hpk
  have hokE : ok.isEmpty = false := isEmpty_false_of_ne ok hok
  refine ⟨?_, fun id vals md n2 => by simp⟩
  cases mref <;>
    simp [insert_text,
      validate_insert_params_accepts t ht (.vNone) (Or.inl rfl) pk ix hpk hix,
      validate_insert_params_accepts t ht (.vDict) (Or.inr rfl) pk ix hpk hix,
      pyOrEnv, pyTruthy, hpkE, hokE, pyStrOf]

theorem c9_failed_embed_no_store_call_witness :
    insert_text ⟨env0, .error "embed down", .ok (), "id-0001"⟩ heap0 (.vStr "T")
        (some 0) (.vStr "pk") (.vStr "ix") "" (.vStr "ok-key") .vNone
      = (.error (.externalError "embed down"), [.embedCall "T"], heap0) :=
  (c9_failed_embed_no_store_call env0 "embed down" (.ok ()) "id-0001" heap0 (some 0)
    "T" "pk" "ix" "ok-key" "" (by decide) (by decide) (by decide) (by decide)).1

/-- Claim C10: a successful insert with a caller-supplied metadata dictionary
mutates that dictionary in place: afterwards the object at the caller's
reference holds the reserved key `"text"` bound to the inserted text, and no
other heap object was touched (no defensive copy was made — the caller's own
object changed). -/
theorem c10_metadata_mutated_in_place
    (env : Env) (emb : List Rat) (fid : String) (heap : Heap) (r : Nat)
    (t pk ix ok nsp : String) (ht : pyStrip t ≠ "")
    (hpk : pk ≠ "") (hix : ix ≠ "") (hok : ok ≠ "") :
    (insert_text ⟨env, .ok emb, .ok (), fid⟩ heap (.vStr t) (some r)
        (.vStr pk) (.vStr ix) nsp (.vStr ok) .vNone).2.2 r
      = dictSet (heap r) "text" (.vStr t)
    ∧ dictGet? ((insert_text ⟨env, .ok emb, .ok (), fid⟩ heap (.vStr t) (some r)
        (.vStr pk) (.vStr ix) nsp (.vStr ok) .vNone).2.2 r) "text"
      = some (.vStr t)
    ∧ ∀ rx, rx ≠ r →
        (insert_text ⟨env, .ok emb, .ok (), fid⟩ heap (.vStr t) (some r)
          (.vStr pk) (.vStr ix) nsp (.vStr ok) .vNone).2.2 rx = heap rx := by
  have hrun := insert_text_success_run env emb fid heap r t pk ix ok nsp ht hpk hix hok
  refine ⟨?_, ?_, fun rx hrx => ?_⟩
  · rw [hrun]
    simp [heapUpdate]
  · rw [hrun]
    simp [heapUpdate, dictGet?_dictSet_self]
  · rw [hrun]
    simp [heapUpdate, hrx]

theorem c10_metadata_mutated_in_place_witness :
    (insert_text wInsert0 heap0 (.vStr "T") (some 0) (.vStr "pk") (.vStr "ix") ""
        (.vStr "ok-key") .vNone).2.2 0
      = dictSet (heap0 0) "text" (.vStr "T")
    ∧ dictGet? ((insert_text wInsert0 heap0 (.vStr "T") (some 0) (.vStr "pk")
        (.vStr "ix") "" (.vStr "ok-key") .vNone).2.2 0) "text"
      = some (.vStr "T") :=
  ⟨(c10_metadata_mutated_in_place env0 [1, 0] "id-0001" heap0 0 "T" "pk" "ix"
      "ok-key" "" (by decide) (by decide) (by decide) (by decide)).1,
   (c10_metadata_mutated_in_place env0 [1, 0] "id-0001" heap0 0 "T" "pk" "ix"
      "ok-key" "" (by decide) (by decide) (by decide) (by decide)).2.1⟩

end PineconeApp
